import Mathlib

/-!
# Verification of the MCP23S17 SPI matrix controller

Shallow embedding of `mcp23s17_controller.py`.  The controller keeps an
8-bit shadow value per GPIO port and talks to the chip through 3-byte SPI
frames.  Machine bytes are modelled as `Nat` (Python integers are unbounded;
every operation below manipulates values `< 256` exactly as the source
does).  Durations handed to `time.sleep` are modelled as rationals: the
source never computes with them, it only passes them along.  Fallible
operations return `Except Err α` together with the updated controller state
and the list of observable events (SPI frames issued, sleeps performed) —
events and state changes that happened before a failure are kept, exactly
as in the Python code where an exception does not undo prior assignments.
-/

/-- Errors raised by the source: `ValueError` for argument validation and a
transport error for a failing SPI transfer (spidev raising). -/
inductive Err where
  | valueError : String → Err
  | transportError : Err
deriving DecidableEq, Repr

/-- A 3-byte SPI frame `[command, address, data]`. -/
structure Frame where
  command : Nat
  address : Nat
  data : Nat
deriving DecidableEq, Repr

/-- Observable events: an SPI frame handed to the bus (by `writebytes` or
`xfer2`) and a call to `time.sleep`. -/
inductive Event where
  | write : Frame → Event
  | sleep : ℚ → Event
deriving DecidableEq, Repr

/-- Is the event a bus write frame? -/
def Event.isWrite : Event → Bool
  | .write _ => true
  | .sleep _ => false

/-- Model of the `spidev.SpiDev` handle together with the attached chip.
`writeOk` is the fault model: whether the transport accepts a given frame
while the device is open.  `regs` is the chip's physical register file,
latched by successful write frames.  `xferResp` gives the 3-byte response
of a full-duplex transfer (`none` = transport failure). -/
structure SpiDev where
  isOpen : Bool
  writeOk : Nat → Nat → Nat → Bool
  xferResp : Nat → Nat → Nat → Option (Nat × Nat × Nat)
  regs : Nat → Nat

/-- Effect of a successful frame on the attached chip: a write frame (bit 0
of the command clear) latches `d` into the register addressed by `a`. -/
def SpiDev.latch (spi : SpiDev) (c a d : Nat) : SpiDev :=
  { spi with regs := if c % 2 == 0 then Function.update spi.regs a d else spi.regs }

/-- `spi.writebytes([c, a, d])`: fails when the handle is closed or the
transport rejects the frame; on success the chip latches the frame. -/
def SpiDev.writebytes (spi : SpiDev) (c a d : Nat) : Except Err SpiDev :=
  if spi.isOpen && spi.writeOk c a d then
    .ok (spi.latch c a d)
  else
    .error .transportError

/-- `spi.xfer2([c, a, d])`: returns the 3-byte response, failing when the
handle is closed or the transport fails. -/
def SpiDev.xfer2 (spi : SpiDev) (c a d : Nat) : Except Err (Nat × Nat × Nat) :=
  if spi.isOpen then
    match spi.xferResp c a d with
    | some r => .ok r
    | none => .error .transportError
  else
    .error .transportError

/-- `spi.close()`. -/
def SpiDev.close (spi : SpiDev) : SpiDev :=
  { spi with isOpen := false }

/-- MCP23S17 register addresses (`MCP23S17Register` enum). -/
inductive Register where
  | IODIRA | IODIRB | IPOLA | IPOLB | GPINTENA | GPINTENB
  | DEFVALA | DEFVALB | INTCONA | INTCONB | IOCONA | IOCONB
  | GPPUA | GPPUB | INTFA | INTFB | INTCAPA | INTCAPB
  | GPIOA | GPIOB | OLATA | OLATB
deriving DecidableEq, Repr

/-- The numeric code of each register (`.value` in the source enum). -/
def Register.value : Register → Nat
  | .IODIRA => 0x00 | .IODIRB => 0x01
  | .IPOLA => 0x02 | .IPOLB => 0x03
  | .GPINTENA => 0x04 | .GPINTENB => 0x05
  | .DEFVALA => 0x06 | .DEFVALB => 0x07
  | .INTCONA => 0x08 | .INTCONB => 0x09
  | .IOCONA => 0x0A | .IOCONB => 0x0B
  | .GPPUA => 0x0C | .GPPUB => 0x0D
  | .INTFA => 0x0E | .INTFB => 0x0F
  | .INTCAPA => 0x10 | .INTCAPB => 0x11
  | .GPIOA => 0x12 | .GPIOB => 0x13
  | .OLATA => 0x14 | .OLATB => 0x15

/-- A valid port name.  The source takes the port as a string, upcases it
and rejects anything outside `{A, B}`; the two accepted values are
modelled as this type. -/
inductive Port where
  | A | B
deriving DecidableEq, Repr

/-- Controller state: the `MCP23S17` object's mutable fields. -/
structure MCP23S17 where
  chip_select : Nat
  port_a_state : Nat
  port_b_state : Nat
  spi : SpiDev

/-- Result type of a controller operation: outcome, post-state, events.
State mutations and events that precede a raised exception persist. -/
def OpResult (α : Type) := Except Err α × MCP23S17 × List Event

/-- `_build_command`: command byte `0x40 | (chip_select << 1) | opcode`
paired with the register address byte. -/
def build_command (s : MCP23S17) (opcode address : Nat) : Nat × Nat :=
  (0x40 ||| (s.chip_select <<< 1) ||| opcode, address)

/-- `_write_register`: issue the write frame `[command, address, data]`;
a transport failure propagates to the caller. -/
def write_register (s : MCP23S17) (register : Register) (data : Nat) :
    OpResult Unit :=
  let ca := build_command s 0 register.value
  match s.spi.writebytes ca.1 ca.2 data with
  | .ok spi' => (.ok (), { s with spi := spi' }, [.write ⟨ca.1, ca.2, data⟩])
  | .error e => (.error e, s, [.write ⟨ca.1, ca.2, data⟩])

/-- `_read_register`: issue `[command, address, 0x00]` with the read
opcode and return the third response byte. -/
def read_register (s : MCP23S17) (register : Register) : OpResult Nat :=
  let ca := build_command s 1 register.value
  match s.spi.xfer2 ca.1 ca.2 0x00 with
  | .ok r => (.ok r.2.2, s, [.write ⟨ca.1, ca.2, 0x00⟩])
  | .error e => (.error e, s, [.write ⟨ca.1, ca.2, 0x00⟩])

/-- `set_pin_high`: validate the pin, set the bit in the port shadow, then
write the full shadow byte to the port's GPIO register.  The shadow is
updated before the write is issued and is not restored if the write
fails, exactly as in the source. -/
def set_pin_high (s : MCP23S17) (port : Port) (pin : Int) : OpResult Unit :=
  if ¬(0 ≤ pin ∧ pin ≤ 7) then
    (.error (.valueError "Pin must be 0-7"), s, [])
  else
    match port with
    | .A =>
      let s' := { s with port_a_state := s.port_a_state ||| (1 <<< pin.toNat) }
      let r := write_register s' .GPIOA s'.port_a_state
      (r.1, r.2.1, r.2.2)
    | .B =>
      let s' := { s with port_b_state := s.port_b_state ||| (1 <<< pin.toNat) }
      let r := write_register s' .GPIOB s'.port_b_state
      (r.1, r.2.1, r.2.2)

/-- `set_pin_low`: validate the pin, clear the bit in the port shadow
(`state & ~(1 << pin)`, i.e. `Nat.ldiff`), then write the full shadow
byte to the port's GPIO register.  As with `set_pin_high` the shadow is
updated before the write and kept on failure. -/
def set_pin_low (s : MCP23S17) (port : Port) (pin : Int) : OpResult Unit :=
  if ¬(0 ≤ pin ∧ pin ≤ 7) then
    (.error (.valueError "Pin must be 0-7"), s, [])
  else
    match port with
    | .A =>
      let s' := { s with port_a_state := Nat.ldiff s.port_a_state (1 <<< pin.toNat) }
      let r := write_register s' .GPIOA s'.port_a_state
      (r.1, r.2.1, r.2.2)
    | .B =>
      let s' := { s with port_b_state := Nat.ldiff s.port_b_state (1 <<< pin.toNat) }
      let r := write_register s' .GPIOB s'.port_b_state
      (r.1, r.2.1, r.2.2)

/-- `toggle_pin`: read the cached bit, call `set_pin_low`/`set_pin_high`
with the inverted value, return the new level. -/
def toggle_pin (s : MCP23S17) (port : Port) (pin : Int) : OpResult Bool :=
  if ¬(0 ≤ pin ∧ pin ≤ 7) then
    (.error (.valueError "Pin must be 0-7"), s, [])
  else
    let is_high :=
      match port with
      | .A => s.port_a_state &&& (1 <<< pin.toNat) != 0
      | .B => s.port_b_state &&& (1 <<< pin.toNat) != 0
    let r := if is_high then set_pin_low s port pin else set_pin_high s port pin
    match r.1 with
    | .ok _ => (.ok (!is_high), r.2.1, r.2.2)
    | .error e => (.error e, r.2.1, r.2.2)

/-- `set_port`: validate the byte, update the shadow to `value` and write
it to the port's GPIO register. -/
def set_port (s : MCP23S17) (port : Port) (value : Int) : OpResult Unit :=
  if ¬(0 ≤ value ∧ value ≤ 0xFF) then
    (.error (.valueError "Value must be 0-255"), s, [])
  else
    match port with
    | .A =>
      let s' := { s with port_a_state := value.toNat }
      let r := write_register s' .GPIOA value.toNat
      (r.1, r.2.1, r.2.2)
    | .B =>
      let s' := { s with port_b_state := value.toNat }
      let r := write_register s' .GPIOB value.toNat
      (r.1, r.2.1, r.2.2)

/-- `get_port_state`: return the cached shadow.  No SPI call is made: the
state is unchanged and the event list is empty. -/
def get_port_state (s : MCP23S17) (port : Port) : OpResult Nat :=
  match port with
  | .A => (.ok s.port_a_state, s, [])
  | .B => (.ok s.port_b_state, s, [])

/-- `pulse_row_column`: row pin high, column pin high, hold for
`duration`, row pin low, column pin low; an exception anywhere stops the
rest, keeping the events and state changes already made. -/
def pulse_row_column (s : MCP23S17) (row col : Int) (row_port col_port : Port)
    (duration : ℚ) : OpResult Unit :=
  match set_pin_high s row_port row with
  | (.error e, s1, ev1) => (.error e, s1, ev1)
  | (.ok _, s1, ev1) =>
    match set_pin_high s1 col_port col with
    | (.error e, s2, ev2) => (.error e, s2, ev1 ++ ev2)
    | (.ok _, s2, ev2) =>
      match set_pin_low s2 row_port row with
      | (.error e, s3, ev3) => (.error e, s3, ev1 ++ ev2 ++ [.sleep duration] ++ ev3)
      | (.ok _, s3, ev3) =>
        match set_pin_low s3 col_port col with
        | (.error e, s4, ev4) =>
          (.error e, s4, ev1 ++ ev2 ++ [.sleep duration] ++ ev3 ++ ev4)
        | (.ok _, s4, ev4) =>
          (.ok (), s4, ev1 ++ ev2 ++ [.sleep duration] ++ ev3 ++ ev4)

/-- `matrix_sequence`: press each `(row, col)` in order via
`pulse_row_column`, sleeping `interval` after every press except the last
(the source's `if i < len(sequence) - 1` guard). -/
def matrix_sequence (s : MCP23S17) (sequence : List (Int × Int))
    (row_port col_port : Port) (duration interval : ℚ) : OpResult Unit :=
  match sequence with
  | [] => (.ok (), s, [])
  | (row, col) :: rest =>
    match pulse_row_column s row col row_port col_port duration with
    | (.error e, s1, ev1) => (.error e, s1, ev1)
    | (.ok _, s1, ev1) =>
      match rest with
      | [] => (.ok (), s1, ev1)
      | _ :: _ =>
        let r := matrix_sequence s1 rest row_port col_port duration interval
        (r.1, r.2.1, ev1 ++ [.sleep interval] ++ r.2.2)

/-- `cleanup`: write `0x00` to both GPIO registers, then close the SPI
handle; the whole body is wrapped in `try/except` that only logs, so no
error ever propagates and a failure skips the remaining steps. -/
def cleanup (s : MCP23S17) : MCP23S17 × List Event :=
  match write_register s .GPIOA 0x00 with
  | (.error _, s1, ev1) => (s1, ev1)
  | (.ok _, s1, ev1) =>
    match write_register s1 .GPIOB 0x00 with
    | (.error _, s2, ev2) => (s2, ev1 ++ ev2)
    | (.ok _, s2, ev2) => ({ s2 with spi := s2.spi.close }, ev1 ++ ev2)

/-- `MatrixController` state: matrix dimensions, port assignment, and the
underlying `MCP23S17`. -/
structure MatrixController where
  num_rows : Int
  num_cols : Int
  row_port : Port
  col_port : Port
  mcp : MCP23S17

/-- `press_button`: validate the position against the matrix dimensions,
then press via `pulse_row_column`. -/
def press_button (mc : MatrixController) (row col : Int) (duration : ℚ) :
    Except Err Unit × MatrixController × List Event :=
  if ¬(0 ≤ row ∧ row < mc.num_rows ∧ 0 ≤ col ∧ col < mc.num_cols) then
    (.error (.valueError "Invalid matrix position"), mc, [])
  else
    let r := pulse_row_column mc.mcp row col mc.row_port mc.col_port duration
    (r.1, { mc with mcp := r.2.1 }, r.2.2)

/-- `press_sequence`: delegate to `matrix_sequence` with the configured
ports.  Note: no validation against the matrix dimensions happens here or
in `matrix_sequence`. -/
def press_sequence (mc : MatrixController) (buttons : List (Int × Int))
    (duration interval : ℚ) : Except Err Unit × MatrixController × List Event :=
  let r := matrix_sequence mc.mcp buttons mc.row_port mc.col_port duration interval
  (r.1, { mc with mcp := r.2.1 }, r.2.2)

/-! ## Helper definitions for stating properties -/

/-- The shadow value the controller caches for a port. -/
def port_state (s : MCP23S17) : Port → Nat
  | .A => s.port_a_state
  | .B => s.port_b_state

/-- The GPIO output register of a port. -/
def gpio_register : Port → Register
  | .A => .GPIOA
  | .B => .GPIOB

/-- Replace the shadow of one port, leaving everything else intact. -/
def set_shadow (s : MCP23S17) (port : Port) (v : Nat) : MCP23S17 :=
  match port with
  | .A => { s with port_a_state := v }
  | .B => { s with port_b_state := v }

/-- A fault-free transport: the handle is open and accepts every frame. -/
def bus_ok (s : MCP23S17) : Prop :=
  s.spi.isOpen = true ∧ ∀ c a d, s.spi.writeOk c a d = true

/-- The event trace of one matrix press started from all-zero shadows on
row port A and column port B: row high, column high, hold, row low,
column low. -/
def pressEvents (cs row col : Nat) (duration : ℚ) : List Event :=
  [.write ⟨0x40 ||| cs <<< 1 ||| 0, 0x12, 1 <<< row⟩,
   .write ⟨0x40 ||| cs <<< 1 ||| 0, 0x13, 1 <<< col⟩,
   .sleep duration,
   .write ⟨0x40 ||| cs <<< 1 ||| 0, 0x12, 0⟩,
   .write ⟨0x40 ||| cs <<< 1 ||| 0, 0x13, 0⟩]

/-- The event trace of a full press sequence from all-zero shadows: the
presses in the given order, with one sleep of `interval` after every
press except the last. -/
def seqEvents (cs : Nat) (seq : List (Int × Int)) (duration interval : ℚ) :
    List Event :=
  match seq with
  | [] => []
  | (r, c) :: rest =>
    pressEvents cs r.toNat c.toNat duration ++
      (match rest with
       | [] => []
       | _ :: _ => .sleep interval :: seqEvents cs rest duration interval)

/-- The event trace of the successfully pressed prefix of a sequence that
aborts later: every prefix press is followed by its inter-press sleep
(the remainder of the list is nonempty at each of them). -/
def abortedEvents (cs : Nat) (pre : List (Int × Int)) (duration interval : ℚ) :
    List Event :=
  match pre with
  | [] => []
  | (r, c) :: rest =>
    pressEvents cs r.toNat c.toNat duration ++
      .sleep interval :: abortedEvents cs rest duration interval

/-! ## Concrete fixtures for witnesses and counterexamples -/

/-- An open transport that accepts every frame and answers every
full-duplex transfer with `(0, 0, 7)`. -/
def faultFreeSpi : SpiDev :=
  ⟨true, fun _ _ _ => true, fun _ _ _ => some (0, 0, 7), fun _ => 0⟩

/-- An open transport that rejects every transfer. -/
def faultySpi : SpiDev :=
  ⟨true, fun _ _ _ => false, fun _ _ _ => none, fun _ => 0⟩

/-- A freshly initialized controller on chip-select 0: both shadows 0. -/
def initState : MCP23S17 := ⟨0, 0, 0, faultFreeSpi⟩

/-- A controller whose transport rejects every transfer. -/
def faultyState : MCP23S17 := ⟨0, 0, 0, faultySpi⟩

/-- A controller state with pin A1 set in the port A shadow. -/
def pressedState : MCP23S17 := ⟨0, 2, 0, faultFreeSpi⟩

/-- A 4×4 matrix controller on rows = port A, columns = port B. -/
def demoController : MatrixController := ⟨4, 4, .A, .B, initState⟩

/-! ## Projection and bitwise helper lemmas -/

theorem latch_isOpen (spi : SpiDev) (c a d : Nat) :
    (spi.latch c a d).isOpen = spi.isOpen := rfl

theorem latch_writeOk (spi : SpiDev) (c a d : Nat) :
    (spi.latch c a d).writeOk = spi.writeOk := rfl

theorem set_shadow_chip_select (s : MCP23S17) (p : Port) (v : Nat) :
    (set_shadow s p v).chip_select = s.chip_select := by
  cases p <;> rfl

theorem set_shadow_spi (s : MCP23S17) (p : Port) (v : Nat) :
    (set_shadow s p v).spi = s.spi := by
  cases p <;> rfl

theorem port_state_set_shadow_self (s : MCP23S17) (p : Port) (v : Nat) :
    port_state (set_shadow s p v) p = v := by
  cases p <;> rfl

theorem port_state_set_shadow_of_ne (s : MCP23S17) (p q : Port) (v : Nat)
    (h : q ≠ p) : port_state (set_shadow s p v) q = port_state s q := by
  cases p <;> cases q <;> simp_all <;> rfl

theorem port_state_update_spi (s : MCP23S17) (x : SpiDev) (q : Port) :
    port_state { s with spi := x } q = port_state s q := by
  cases q <;> rfl

theorem testBit_one_shiftLeft_self (p : Nat) : Nat.testBit (1 <<< p) p = true := by
  simp [Nat.one_shiftLeft, Nat.testBit_two_pow_self]

theorem testBit_one_shiftLeft_of_ne {p q : Nat} (h : p ≠ q) :
    Nat.testBit (1 <<< p) q = false := by
  simp [Nat.one_shiftLeft, Nat.testBit_two_pow_of_ne h]

theorem testBit_lor_one_shiftLeft_self (a p : Nat) :
    Nat.testBit (a ||| 1 <<< p) p = true := by
  simp [Nat.testBit_or, testBit_one_shiftLeft_self]

theorem testBit_ldiff_one_shiftLeft_self (a p : Nat) :
    Nat.testBit (Nat.ldiff a (1 <<< p)) p = false := by
  simp [Nat.testBit_ldiff, testBit_one_shiftLeft_self]

theorem ldiff_lor_one_shiftLeft (a p : Nat) (h : Nat.testBit a p = false) :
    Nat.ldiff (a ||| 1 <<< p) (1 <<< p) = a := by
  apply Nat.eq_of_testBit_eq
  intro j
  rw [Nat.testBit_ldiff, Nat.testBit_or]
  by_cases hj : p = j
  · subst hj; simp [testBit_one_shiftLeft_self, h]
  · simp [testBit_one_shiftLeft_of_ne hj]

theorem lor_ldiff_one_shiftLeft (a p : Nat) (h : Nat.testBit a p = true) :
    Nat.ldiff a (1 <<< p) ||| 1 <<< p = a := by
  apply Nat.eq_of_testBit_eq
  intro j
  rw [Nat.testBit_or, Nat.testBit_ldiff]
  by_cases hj : p = j
  · subst hj; simp [testBit_one_shiftLeft_self, h]
  · simp [testBit_one_shiftLeft_of_ne hj]

theorem and_one_shiftLeft_bne (a p : Nat) :
    (a &&& 1 <<< p != 0) = Nat.testBit a p := by
  rw [Nat.one_shiftLeft, Nat.and_two_pow]
  cases h : Nat.testBit a p <;>
    simp [h, Nat.pos_iff_ne_zero, Nat.two_pow_pos]

theorem write_command_mod_two (cs : Nat) : (0x40 ||| cs <<< 1) % 2 = 0 := by
  have h : (0x40 ||| cs <<< 1).testBit 0 = false := by
    simp [Nat.testBit_or, Nat.testBit_shiftLeft]
  exact Nat.mod_two_eq_zero_iff_testBit_zero.mpr h

/-! ## Structural lemmas about the register layer -/

theorem write_register_trace (s : MCP23S17) (r : Register) (d : Nat) :
    (write_register s r d).2.2
      = [.write ⟨0x40 ||| s.chip_select <<< 1 ||| 0, r.value, d⟩] := by
  simp only [write_register, build_command]
  cases s.spi.writebytes (0x40 ||| s.chip_select <<< 1 ||| 0) r.value d <;> rfl

theorem write_register_shadow (s : MCP23S17) (r : Register) (d : Nat) (q : Port) :
    port_state (write_register s r d).2.1 q = port_state s q := by
  simp only [write_register, build_command]
  cases s.spi.writebytes (0x40 ||| s.chip_select <<< 1 ||| 0) r.value d <;>
    simp [port_state_update_spi]

theorem write_register_port_a (s : MCP23S17) (r : Register) (d : Nat) :
    (write_register s r d).2.1.port_a_state = s.port_a_state :=
  write_register_shadow s r d .A

theorem write_register_port_b (s : MCP23S17) (r : Register) (d : Nat) :
    (write_register s r d).2.1.port_b_state = s.port_b_state :=
  write_register_shadow s r d .B

theorem write_register_chip_select (s : MCP23S17) (r : Register) (d : Nat) :
    (write_register s r d).2.1.chip_select = s.chip_select := by
  simp only [write_register, build_command]
  cases s.spi.writebytes (0x40 ||| s.chip_select <<< 1 ||| 0) r.value d <;> rfl

theorem set_pin_high_ok (s : MCP23S17) (port : Port) (pin : Int) (h0 : 0 ≤ pin)
    (h7 : pin ≤ 7) (hopen : s.spi.isOpen = true)
    (hok : ∀ c a d, s.spi.writeOk c a d = true) :
    set_pin_high s port pin =
      (.ok (),
       { set_shadow s port (port_state s port ||| 1 <<< pin.toNat) with
           spi := s.spi.latch (0x40 ||| s.chip_select <<< 1 ||| 0)
                    (gpio_register port).value
                    (port_state s port ||| 1 <<< pin.toNat) },
       [.write ⟨0x40 ||| s.chip_select <<< 1 ||| 0, (gpio_register port).value,
                port_state s port ||| 1 <<< pin.toNat⟩]) := by
  cases port <;>
    simp [set_pin_high, write_register, build_command, SpiDev.writebytes,
          hopen, hok, h0, h7, set_shadow, port_state, gpio_register]

theorem set_pin_low_ok (s : MCP23S17) (port : Port) (pin : Int) (h0 : 0 ≤ pin)
    (h7 : pin ≤ 7) (hopen : s.spi.isOpen = true)
    (hok : ∀ c a d, s.spi.writeOk c a d = true) :
    set_pin_low s port pin =
      (.ok (),
       { set_shadow s port (Nat.ldiff (port_state s port) (1 <<< pin.toNat)) with
           spi := s.spi.latch (0x40 ||| s.chip_select <<< 1 ||| 0)
                    (gpio_register port).value
                    (Nat.ldiff (port_state s port) (1 <<< pin.toNat)) },
       [.write ⟨0x40 ||| s.chip_select <<< 1 ||| 0, (gpio_register port).value,
                Nat.ldiff (port_state s port) (1 <<< pin.toNat)⟩]) := by
  cases port <;>
    simp [set_pin_low, write_register, build_command, SpiDev.writebytes,
          hopen, hok, h0, h7, set_shadow, port_state, gpio_register]

theorem cleanup_shadow (s : MCP23S17) (q : Port) :
    port_state (cleanup s).1 q = port_state s q := by
  unfold cleanup
  split
  next e1 s1 ev1 hw1 =>
    have h1 := write_register_shadow s .GPIOA 0x00 q
    rw [hw1] at h1
    simpa using h1
  next u s1 ev1 hw1 =>
    have h1 := write_register_shadow s .GPIOA 0x00 q
    rw [hw1] at h1
    split
    next e2 s2 ev2 hw2 =>
      have h2 := write_register_shadow s1 .GPIOB 0x00 q
      rw [hw2] at h2
      simp at h1 h2
      simpa using h2.trans h1
    next u2 s2 ev2 hw2 =>
      have h2 := write_register_shadow s1 .GPIOB 0x00 q
      rw [hw2] at h2
      simp at h1 h2
      have h3 := port_state_update_spi s2 s2.spi.close q
      simpa using h3.trans (h2.trans h1)

/-! ## Claim theorems -/

/-- C1, counterexample: with a transport that rejects the frame,
`set_pin_high` on pin A1 raises the transport error but leaves the port A
shadow at the NEW value 2, not the pre-call value 0 — the shadow is
updated before the write and never rolled back, contradicting the claim
that a failed write leaves the shadow unchanged. -/
theorem set_pin_write_failure_keeps_updated_shadow_cex :
    faultyState.port_a_state = 0 ∧
    (set_pin_high faultyState .A 1).1 = .error .transportError ∧
    (set_pin_high faultyState .A 1).2.1.port_a_state = 2 := by
  exact ⟨rfl, rfl, rfl⟩

/-- C1, amended: for every valid pin, `set_pin_high`/`set_pin_low` update
the cached shadow to the new value before the write is issued and keep it
whether or not the write succeeds (no rollback), and the issued frame
carries exactly that new shadow value; so the shadow reflects the last
value attempted, which equals the last successfully written value only
while every write succeeds. -/
theorem set_pin_shadow_updated_before_write (s : MCP23S17) (port : Port)
    (pin : Int) (h0 : 0 ≤ pin) (h7 : pin ≤ 7) :
    port_state (set_pin_high s port pin).2.1 port
        = port_state s port ||| 1 <<< pin.toNat ∧
    (set_pin_high s port pin).2.2
        = [.write ⟨0x40 ||| s.chip_select <<< 1 ||| 0, (gpio_register port).value,
                   port_state s port ||| 1 <<< pin.toNat⟩] ∧
    port_state (set_pin_low s port pin).2.1 port
        = Nat.ldiff (port_state s port) (1 <<< pin.toNat) ∧
    (set_pin_low s port pin).2.2
        = [.write ⟨0x40 ||| s.chip_select <<< 1 ||| 0, (gpio_register port).value,
                   Nat.ldiff (port_state s port) (1 <<< pin.toNat)⟩] := by
  cases port <;>
    refine ⟨?_, ?_, ?_, ?_⟩ <;>
      simp [set_pin_high, set_pin_low, h0, h7, port_state, gpio_register,
            Register.value, write_register_port_a, write_register_port_b,
            write_register_trace]

/-- Witness for the amended C1 at the concrete failing transport. -/
theorem set_pin_shadow_updated_before_write_witness :
    port_state (set_pin_high faultyState .A 1).2.1 .A
        = port_state faultyState .A ||| 1 <<< (1 : Int).toNat ∧
    (set_pin_high faultyState .A 1).2.2
        = [.write ⟨0x40 ||| faultyState.chip_select <<< 1 ||| 0,
                   (gpio_register .A).value,
                   port_state faultyState .A ||| 1 <<< (1 : Int).toNat⟩] ∧
    port_state (set_pin_low faultyState .A 1).2.1 .A
        = Nat.ldiff (port_state faultyState .A) (1 <<< (1 : Int).toNat) ∧
    (set_pin_low faultyState .A 1).2.2
        = [.write ⟨0x40 ||| faultyState.chip_select <<< 1 ||| 0,
                   (gpio_register .A).value,
                   Nat.ldiff (port_state faultyState .A) (1 <<< (1 : Int).toNat)⟩] :=
  set_pin_shadow_updated_before_write faultyState .A 1 (by decide) (by decide)

/-- C3: a register write emits exactly the 3-byte frame
`[0x40 ||| (chip_select <<< 1) ||| 0, address, data]`; a register read
emits `[0x40 ||| (chip_select <<< 1) ||| 1, address, 0x00]` whose command
has bit 0 (the opcode bit) set while the write command has it clear, and
the read returns the third byte of the 3-byte response. -/
theorem register_frame_format (s : MCP23S17) (register : Register) (data : Nat) :
    (write_register s register data).2.2
        = [.write ⟨0x40 ||| s.chip_select <<< 1 ||| 0, register.value, data⟩] ∧
    (read_register s register).2.2
        = [.write ⟨0x40 ||| s.chip_select <<< 1 ||| 1, register.value, 0x00⟩] ∧
    Nat.testBit (0x40 ||| s.chip_select <<< 1 ||| 1) 0 = true ∧
    Nat.testBit (0x40 ||| s.chip_select <<< 1 ||| 0) 0 = false ∧
    (∀ r0 r1 r2 : Nat, s.spi.isOpen = true →
      s.spi.xferResp (0x40 ||| s.chip_select <<< 1 ||| 1) register.value 0x00
          = some (r0, r1, r2) →
      (read_register s register).1 = .ok r2) := by
  refine ⟨write_register_trace s register data, ?_, ?_, ?_, ?_⟩
  · simp only [read_register, build_command]
    cases s.spi.xfer2 (0x40 ||| s.chip_select <<< 1 ||| 1) register.value 0x00 <;> rfl
  · simp [Nat.testBit_or, Nat.testBit_shiftLeft]
  · simp [Nat.testBit_or, Nat.testBit_shiftLeft]
  · intro r0 r1 r2 hopen hresp
    simp [read_register, build_command, SpiDev.xfer2, hopen, hresp]

/-- Witness for C3: on the fault-free transport, whose every transfer
answers `(0, 0, 7)`, a register read returns 7. -/
theorem register_frame_format_witness :
    (read_register initState .GPIOA).1 = .ok 7 :=
  (register_frame_format initState .GPIOA 0).2.2.2.2 0 0 7 rfl rfl

/-- C5: a press at a position outside the configured matrix raises
`ValueError` before any bus access: no event is emitted and the
controller (both port shadows included) is unchanged. -/
theorem press_button_invalid_rejected (mc : MatrixController) (row col : Int)
    (d : ℚ) (h : ¬(0 ≤ row ∧ row < mc.num_rows ∧ 0 ≤ col ∧ col < mc.num_cols)) :
    press_button mc row col d
      = (.error (.valueError "Invalid matrix position"), mc, []) := by
  unfold press_button
  rw [if_pos h]

/-- Witness for C5 at row 5 of a 4×4 matrix. -/
theorem press_button_invalid_rejected_witness :
    press_button demoController 5 0 0
      = (.error (.valueError "Invalid matrix position"), demoController, []) :=
  press_button_invalid_rejected demoController 5 0 0 (by decide)

/-- C10: `cleanup` leaves the cached shadows untouched for every state;
concretely, after `cleanup` of a state whose port A shadow is 2,
`get_port_state` still answers 2 while the physical GPIOA register holds
0 — cache and hardware now disagree. -/
theorem cleanup_keeps_cached_shadows :
    (∀ s : MCP23S17, (cleanup s).1.port_a_state = s.port_a_state ∧
        (cleanup s).1.port_b_state = s.port_b_state) ∧
    pressedState.port_a_state = 2 ∧
    (get_port_state (cleanup pressedState).1 .A).1 = .ok 2 ∧
    (cleanup pressedState).1.spi.regs (Register.value .GPIOA) = 0 := by
  exact ⟨fun s => ⟨cleanup_shadow s .A, cleanup_shadow s .B⟩, rfl, rfl, rfl⟩

/-- C7: after a successful `set_pin_high` the value `get_port_state`
returns for that port has the pin bit set; after a successful
`set_pin_low` it has the pin bit clear; and `get_port_state` never
touches the bus: it returns the cached shadow with no event and no state
change. -/
theorem set_pin_then_get_port_state (s : MCP23S17) (port : Port) (pin : Int)
    (h0 : 0 ≤ pin) (h7 : pin ≤ 7) (hopen : s.spi.isOpen = true)
    (hok : ∀ c a d, s.spi.writeOk c a d = true) :
    (set_pin_high s port pin).1 = .ok () ∧
    Nat.testBit (port_state (set_pin_high s port pin).2.1 port) pin.toNat = true ∧
    (set_pin_low s port pin).1 = .ok () ∧
    Nat.testBit (port_state (set_pin_low s port pin).2.1 port) pin.toNat = false ∧
    (∀ (t : MCP23S17) (q : Port), get_port_state t q = (.ok (port_state t q), t, [])) := by
  refine ⟨?_, ?_, ?_, ?_, ?_⟩
  · rw [set_pin_high_ok s port pin h0 h7 hopen hok]
  · rw [set_pin_high_ok s port pin h0 h7 hopen hok]
    show Nat.testBit (port_state { set_shadow s port _ with spi := _ } port) pin.toNat = true
    rw [port_state_update_spi, port_state_set_shadow_self]
    exact testBit_lor_one_shiftLeft_self _ _
  · rw [set_pin_low_ok s port pin h0 h7 hopen hok]
  · rw [set_pin_low_ok s port pin h0 h7 hopen hok]
    show Nat.testBit (port_state { set_shadow s port _ with spi := _ } port) pin.toNat = false
    rw [port_state_update_spi, port_state_set_shadow_self]
    exact testBit_ldiff_one_shiftLeft_self _ _
  · intro t q; cases q <;> rfl

/-- Witness for C7 on pin A3 of a freshly initialized controller. -/
theorem set_pin_then_get_port_state_witness :
    (set_pin_high initState .A 3).1 = .ok () ∧
    Nat.testBit (port_state (set_pin_high initState .A 3).2.1 .A) (3 : Int).toNat = true ∧
    (set_pin_low initState .A 3).1 = .ok () ∧
    Nat.testBit (port_state (set_pin_low initState .A 3).2.1 .A) (3 : Int).toNat = false ∧
    (∀ (t : MCP23S17) (q : Port), get_port_state t q = (.ok (port_state t q), t, [])) :=
  set_pin_then_get_port_state initState .A 3 (by decide) (by decide) rfl
    (fun _ _ _ => rfl)

theorem toggle_pin_ok (s : MCP23S17) (port : Port) (pin : Int)
    (h0 : 0 ≤ pin) (h7 : pin ≤ 7) (hopen : s.spi.isOpen = true)
    (hok : ∀ c a d, s.spi.writeOk c a d = true) :
    (toggle_pin s port pin).1 = .ok (!(Nat.testBit (port_state s port) pin.toNat)) ∧
    port_state (toggle_pin s port pin).2.1 port
      = (if Nat.testBit (port_state s port) pin.toNat
         then Nat.ldiff (port_state s port) (1 <<< pin.toNat)
         else port_state s port ||| 1 <<< pin.toNat) ∧
    (toggle_pin s port pin).2.1.spi.isOpen = true ∧
    (toggle_pin s port pin).2.1.spi.writeOk = s.spi.writeOk := by
  have hv : ¬¬(0 ≤ pin ∧ pin ≤ 7) := not_not_intro ⟨h0, h7⟩
  cases port with
  | A =>
    simp only [toggle_pin, if_neg hv, and_one_shiftLeft_bne, port_state]
    cases h : s.port_a_state.testBit pin.toNat with
    | false =>
      simp only [h, Bool.false_eq_true, if_false]
      rw [set_pin_high_ok s Port.A pin h0 h7 hopen hok]
      simp [SpiDev.latch, set_shadow, port_state, gpio_register, hopen, h]
    | true =>
      simp only [h, if_true]
      rw [set_pin_low_ok s Port.A pin h0 h7 hopen hok]
      simp [SpiDev.latch, set_shadow, port_state, gpio_register, hopen, h]
  | B =>
    simp only [toggle_pin, if_neg hv, and_one_shiftLeft_bne, port_state]
    cases h : s.port_b_state.testBit pin.toNat with
    | false =>
      simp only [h, Bool.false_eq_true, if_false]
      rw [set_pin_high_ok s Port.B pin h0 h7 hopen hok]
      simp [SpiDev.latch, set_shadow, port_state, gpio_register, hopen, h]
    | true =>
      simp only [h, if_true]
      rw [set_pin_low_ok s Port.B pin h0 h7 hopen hok]
      simp [SpiDev.latch, set_shadow, port_state, gpio_register, hopen, h]

/-- C8: for every valid (port, pin) and fault-free transport, each
`toggle_pin` call returns the negation of the cached level before the
call, and two consecutive toggles restore the port shadow to its
original value. -/
theorem toggle_pin_involution (s : MCP23S17) (port : Port) (pin : Int)
    (h0 : 0 ≤ pin) (h7 : pin ≤ 7) (hopen : s.spi.isOpen = true)
    (hok : ∀ c a d, s.spi.writeOk c a d = true) :
    (toggle_pin s port pin).1
        = .ok (!(Nat.testBit (port_state s port) pin.toNat)) ∧
    (toggle_pin (toggle_pin s port pin).2.1 port pin).1
        = .ok (Nat.testBit (port_state s port) pin.toNat) ∧
    port_state (toggle_pin (toggle_pin s port pin).2.1 port pin).2.1 port
        = port_state s port := by
  obtain ⟨hr1, hm, ho1, hw1⟩ := toggle_pin_ok s port pin h0 h7 hopen hok
  have hok1 : ∀ c a d, (toggle_pin s port pin).2.1.spi.writeOk c a d = true := by
    intro c a d; rw [hw1]; exact hok c a d
  obtain ⟨hr2, hm2, ho2, hw2⟩ :=
    toggle_pin_ok (toggle_pin s port pin).2.1 port pin h0 h7 ho1 hok1
  cases h : Nat.testBit (port_state s port) pin.toNat with
  | false =>
    have hmv : port_state (toggle_pin s port pin).2.1 port
        = port_state s port ||| 1 <<< pin.toNat := by
      rw [hm, h]; simp
    have hbit : Nat.testBit (port_state (toggle_pin s port pin).2.1 port)
        pin.toNat = true := by
      rw [hmv]; exact testBit_lor_one_shiftLeft_self _ _
    refine ⟨by rw [hr1, h], by rw [hr2, hbit]; rfl, ?_⟩
    rw [hm2, hbit]
    simp only [if_true]
    rw [hmv, ldiff_lor_one_shiftLeft _ _ h]
  | true =>
    have hmv : port_state (toggle_pin s port pin).2.1 port
        = Nat.ldiff (port_state s port) (1 <<< pin.toNat) := by
      rw [hm, h]; simp
    have hbit : Nat.testBit (port_state (toggle_pin s port pin).2.1 port)
        pin.toNat = false := by
      rw [hmv]; exact testBit_ldiff_one_shiftLeft_self _ _
    refine ⟨by rw [hr1, h], by rw [hr2, hbit]; rfl, ?_⟩
    rw [hm2, hbit]
    simp only [Bool.false_eq_true, if_false]
    rw [hmv, lor_ldiff_one_shiftLeft _ _ h]

/-- Witness for C8: two toggles of pin A1 starting from a state whose
port A shadow is 2 (bit 1 set). -/
theorem toggle_pin_involution_witness :
    (toggle_pin pressedState .A 1).1
        = .ok (!(Nat.testBit (port_state pressedState .A) (1 : Int).toNat)) ∧
    (toggle_pin (toggle_pin pressedState .A 1).2.1 .A 1).1
        = .ok (Nat.testBit (port_state pressedState .A) (1 : Int).toNat) ∧
    port_state (toggle_pin (toggle_pin pressedState .A 1).2.1 .A 1).2.1 .A
        = port_state pressedState .A :=
  toggle_pin_involution pressedState .A 1 (by decide) (by decide) rfl
    (fun _ _ _ => rfl)

/-- C4: for pin-valid row and col on a fault-free transport, one matrix
press issues exactly four GPIO-register bus writes — and nothing else but
the hold — in the order row-high, col-high, (hold), row-low, col-low: the
first frame targets the row port's GPIO register with the row bit set,
the second the column port's with the column bit set, and after the sleep
the third and fourth clear the row bit and then the column bit. -/
theorem pulse_row_column_four_writes (s : MCP23S17) (row col : Int)
    (row_port col_port : Port) (d : ℚ)
    (hr0 : 0 ≤ row) (hr7 : row ≤ 7) (hc0 : 0 ≤ col) (hc7 : col ≤ 7)
    (hopen : s.spi.isOpen = true)
    (hok : ∀ c a dd, s.spi.writeOk c a dd = true) :
    ∃ d1 d2 d3 d4 : Nat,
      (pulse_row_column s row col row_port col_port d).1 = .ok () ∧
      (pulse_row_column s row col row_port col_port d).2.2 =
        [.write ⟨0x40 ||| s.chip_select <<< 1 ||| 0, (gpio_register row_port).value, d1⟩,
         .write ⟨0x40 ||| s.chip_select <<< 1 ||| 0, (gpio_register col_port).value, d2⟩,
         .sleep d,
         .write ⟨0x40 ||| s.chip_select <<< 1 ||| 0, (gpio_register row_port).value, d3⟩,
         .write ⟨0x40 ||| s.chip_select <<< 1 ||| 0, (gpio_register col_port).value, d4⟩] ∧
      Nat.testBit d1 row.toNat = true ∧
      Nat.testBit d2 col.toNat = true ∧
      Nat.testBit d3 row.toNat = false ∧
      Nat.testBit d4 col.toNat = false := by
  cases row_port with
  | A =>
    cases col_port with
    | A =>
      refine ⟨s.port_a_state ||| 1 <<< row.toNat,
              s.port_a_state ||| 1 <<< row.toNat ||| 1 <<< col.toNat,
              Nat.ldiff (s.port_a_state ||| 1 <<< row.toNat ||| 1 <<< col.toNat)
                (1 <<< row.toNat),
              Nat.ldiff
                (Nat.ldiff (s.port_a_state ||| 1 <<< row.toNat ||| 1 <<< col.toNat)
                  (1 <<< row.toNat)) (1 <<< col.toNat),
              ?_, ?_, testBit_lor_one_shiftLeft_self _ _,
              testBit_lor_one_shiftLeft_self _ _,
              testBit_ldiff_one_shiftLeft_self _ _,
              testBit_ldiff_one_shiftLeft_self _ _⟩ <;>
        simp [pulse_row_column, set_pin_high_ok, set_pin_low_ok, hr0, hr7, hc0,
              hc7, hopen, hok, set_shadow, port_state, gpio_register,
              Register.value, SpiDev.latch]
    | B =>
      refine ⟨s.port_a_state ||| 1 <<< row.toNat,
              s.port_b_state ||| 1 <<< col.toNat,
              Nat.ldiff (s.port_a_state ||| 1 <<< row.toNat) (1 <<< row.toNat),
              Nat.ldiff (s.port_b_state ||| 1 <<< col.toNat) (1 <<< col.toNat),
              ?_, ?_, testBit_lor_one_shiftLeft_self _ _,
              testBit_lor_one_shiftLeft_self _ _,
              testBit_ldiff_one_shiftLeft_self _ _,
              testBit_ldiff_one_shiftLeft_self _ _⟩ <;>
        simp [pulse_row_column, set_pin_high_ok, set_pin_low_ok, hr0, hr7, hc0,
              hc7, hopen, hok, set_shadow, port_state, gpio_register,
              Register.value, SpiDev.latch]
  | B =>
    cases col_port with
    | A =>
      refine ⟨s.port_b_state ||| 1 <<< row.toNat,
              s.port_a_state ||| 1 <<< col.toNat,
              Nat.ldiff (s.port_b_state ||| 1 <<< row.toNat) (1 <<< row.toNat),
              Nat.ldiff (s.port_a_state ||| 1 <<< col.toNat) (1 <<< col.toNat),
              ?_, ?_, testBit_lor_one_shiftLeft_self _ _,
              testBit_lor_one_shiftLeft_self _ _,
              testBit_ldiff_one_shiftLeft_self _ _,
              testBit_ldiff_one_shiftLeft_self _ _⟩ <;>
        simp [pulse_row_column, set_pin_high_ok, set_pin_low_ok, hr0, hr7, hc0,
              hc7, hopen, hok, set_shadow, port_state, gpio_register,
              Register.value, SpiDev.latch]
    | B =>
      refine ⟨s.port_b_state ||| 1 <<< row.toNat,
              s.port_b_state ||| 1 <<< row.toNat ||| 1 <<< col.toNat,
              Nat.ldiff (s.port_b_state ||| 1 <<< row.toNat ||| 1 <<< col.toNat)
                (1 <<< row.toNat),
              Nat.ldiff
                (Nat.ldiff (s.port_b_state ||| 1 <<< row.toNat ||| 1 <<< col.toNat)
                  (1 <<< row.toNat)) (1 <<< col.toNat),
              ?_, ?_, testBit_lor_one_shiftLeft_self _ _,
              testBit_lor_one_shiftLeft_self _ _,
              testBit_ldiff_one_shiftLeft_self _ _,
              testBit_ldiff_one_shiftLeft_self _ _⟩ <;>
        simp [pulse_row_column, set_pin_high_ok, set_pin_low_ok, hr0, hr7, hc0,
              hc7, hopen, hok, set_shadow, port_state, gpio_register,
              Register.value, SpiDev.latch]

/-- Witness for C4: press (1, 3) on rows = port A, columns = port B from
the freshly initialized controller. -/
theorem pulse_row_column_four_writes_witness :
    ∃ d1 d2 d3 d4 : Nat,
      (pulse_row_column initState 1 3 .A .B (1/10)).1 = .ok () ∧
      (pulse_row_column initState 1 3 .A .B (1/10)).2.2 =
        [.write ⟨0x40 ||| initState.chip_select <<< 1 ||| 0, (gpio_register .A).value, d1⟩,
         .write ⟨0x40 ||| initState.chip_select <<< 1 ||| 0, (gpio_register .B).value, d2⟩,
         .sleep (1/10),
         .write ⟨0x40 ||| initState.chip_select <<< 1 ||| 0, (gpio_register .A).value, d3⟩,
         .write ⟨0x40 ||| initState.chip_select <<< 1 ||| 0, (gpio_register .B).value, d4⟩] ∧
      Nat.testBit d1 (1 : Int).toNat = true ∧
      Nat.testBit d2 (3 : Int).toNat = true ∧
      Nat.testBit d3 (1 : Int).toNat = false ∧
      Nat.testBit d4 (3 : Int).toNat = false :=
  pulse_row_column_four_writes initState 1 3 .A .B (1/10) (by decide) (by decide)
    (by decide) (by decide) rfl (fun _ _ _ => rfl)

theorem ldiff_one_shiftLeft_self (p : Nat) :
    Nat.ldiff (1 <<< p) (1 <<< p) = 0 := by
  have h := ldiff_lor_one_shiftLeft 0 p (Nat.zero_testBit p)
  simpa using h

theorem pulse_from_zero (s : MCP23S17) (row col : Int)
    (hr0 : 0 ≤ row) (hr7 : row ≤ 7) (hc0 : 0 ≤ col) (hc7 : col ≤ 7)
    (ha : s.port_a_state = 0) (hb : s.port_b_state = 0)
    (hopen : s.spi.isOpen = true) (hok : ∀ c a dd, s.spi.writeOk c a dd = true)
    (d : ℚ) :
    (pulse_row_column s row col .A .B d).1 = .ok () ∧
    (pulse_row_column s row col .A .B d).2.1.port_a_state = 0 ∧
    (pulse_row_column s row col .A .B d).2.1.port_b_state = 0 ∧
    (pulse_row_column s row col .A .B d).2.1.chip_select = s.chip_select ∧
    (pulse_row_column s row col .A .B d).2.1.spi.isOpen = true ∧
    (pulse_row_column s row col .A .B d).2.1.spi.writeOk = s.spi.writeOk ∧
    (pulse_row_column s row col .A .B d).2.2
      = pressEvents s.chip_select row.toNat col.toNat d := by
  refine ⟨?_, ?_, ?_, ?_, ?_, ?_, ?_⟩ <;>
    simp [pulse_row_column, set_pin_high_ok, set_pin_low_ok, hr0, hr7, hc0, hc7,
          hopen, hok, ha, hb, set_shadow, port_state, gpio_register,
          Register.value, SpiDev.latch, pressEvents, ldiff_one_shiftLeft_self]

theorem matrix_sequence_from_zero (seq : List (Int × Int)) :
    ∀ (s : MCP23S17), s.port_a_state = 0 → s.port_b_state = 0 →
    s.spi.isOpen = true → (∀ c a dd, s.spi.writeOk c a dd = true) →
    (∀ p ∈ seq, 0 ≤ p.1 ∧ p.1 ≤ 7 ∧ 0 ≤ p.2 ∧ p.2 ≤ 7) →
    ∀ (d i : ℚ),
    (matrix_sequence s seq .A .B d i).1 = .ok () ∧
    (matrix_sequence s seq .A .B d i).2.1.port_a_state = 0 ∧
    (matrix_sequence s seq .A .B d i).2.1.port_b_state = 0 ∧
    (matrix_sequence s seq .A .B d i).2.1.chip_select = s.chip_select ∧
    (matrix_sequence s seq .A .B d i).2.1.spi.isOpen = true ∧
    (matrix_sequence s seq .A .B d i).2.1.spi.writeOk = s.spi.writeOk ∧
    (matrix_sequence s seq .A .B d i).2.2 = seqEvents s.chip_select seq d i := by
  induction seq with
  | nil =>
    intro s ha hb hopen hok hvalid d i
    simp [matrix_sequence, seqEvents, ha, hb, hopen]
  | cons hd rest ih =>
    intro s ha hb hopen hok hvalid d i
    obtain ⟨r, c⟩ := hd
    obtain ⟨hr0, hr7, hc0, hc7⟩ := hvalid (r, c) (by simp)
    obtain ⟨hp1, hpa, hpb, hpcs, hpo, hpw, hptr⟩ :=
      pulse_from_zero s r c hr0 hr7 hc0 hc7 ha hb hopen hok d
    simp only [matrix_sequence]
    split
    next e s1 ev1 hw2 =>
      rw [hw2] at hp1
      simp at hp1
    next u s1 ev1 hw2 =>
      have h1a : s1.port_a_state = 0 := by rw [hw2] at hpa; exact hpa
      have h1b : s1.port_b_state = 0 := by rw [hw2] at hpb; exact hpb
      have h1cs : s1.chip_select = s.chip_select := by rw [hw2] at hpcs; exact hpcs
      have h1o : s1.spi.isOpen = true := by rw [hw2] at hpo; exact hpo
      have h1w : s1.spi.writeOk = s.spi.writeOk := by rw [hw2] at hpw; exact hpw
      have h1tr : ev1 = pressEvents s.chip_select r.toNat c.toNat d := by
        rw [hw2] at hptr; exact hptr
      cases rest with
      | nil =>
        simp [seqEvents, h1a, h1b, h1cs, h1o, h1w, h1tr]
      | cons q rest2 =>
        obtain ⟨ih1, iha, ihb, ihcs, iho, ihw, ihtr⟩ :=
          ih s1 h1a h1b h1o
            (fun c' a' d' => by rw [h1w]; exact hok c' a' d')
            (fun p hp => hvalid p (List.mem_cons_of_mem _ hp)) d i
        refine ⟨ih1, iha, ihb, by rw [ihcs, h1cs], iho,
                by rw [ihw, h1w], ?_⟩
        rw [h1tr, ihtr, h1cs]
        rw [show seqEvents s.chip_select ((r, c) :: q :: rest2) d i
              = pressEvents s.chip_select r.toNat c.toNat d
                ++ (Event.sleep i :: seqEvents s.chip_select (q :: rest2) d i)
            from rfl]
        simp

/-- C6: `press_sequence` of the empty list performs no press, issues no
event at all, and returns the controller unchanged; and for every
pin-valid sequence from the initialized all-low state it succeeds with
the event trace `seqEvents`, which presses the positions strictly in the
given order with one inter-press sleep after every press except the
last. -/
theorem press_sequence_in_order :
    (∀ (mc : MatrixController) (d i : ℚ),
      press_sequence mc [] d i = (.ok (), mc, [])) ∧
    (∀ (mc : MatrixController) (seq : List (Int × Int)) (d i : ℚ),
      mc.row_port = .A → mc.col_port = .B →
      mc.mcp.port_a_state = 0 → mc.mcp.port_b_state = 0 →
      mc.mcp.spi.isOpen = true →
      (∀ c a dd, mc.mcp.spi.writeOk c a dd = true) →
      (∀ p ∈ seq, 0 ≤ p.1 ∧ p.1 ≤ 7 ∧ 0 ≤ p.2 ∧ p.2 ≤ 7) →
      (press_sequence mc seq d i).1 = .ok () ∧
      (press_sequence mc seq d i).2.2 = seqEvents mc.mcp.chip_select seq d i) := by
  constructor
  · intro mc d i
    rfl
  · intro mc seq d i hrp hcp ha hb ho hw hvalid
    obtain ⟨h1, _, _, _, _, _, htr⟩ :=
      matrix_sequence_from_zero seq mc.mcp ha hb ho hw hvalid d i
    constructor
    · show (matrix_sequence mc.mcp seq mc.row_port mc.col_port d i).1 = .ok ()
      rw [hrp, hcp]; exact h1
    · show (matrix_sequence mc.mcp seq mc.row_port mc.col_port d i).2.2 = _
      rw [hrp, hcp]; exact htr

/-- Witness for C6: the two-press sequence [(0,0), (1,1)] on the fresh
4×4 controller. -/
theorem press_sequence_in_order_witness :
    (press_sequence demoController [(0, 0), (1, 1)] (1/10) (1/5)).1 = .ok () ∧
    (press_sequence demoController [(0, 0), (1, 1)] (1/10) (1/5)).2.2
      = seqEvents demoController.mcp.chip_select [(0, 0), (1, 1)] (1/10) (1/5) :=
  press_sequence_in_order.2 demoController [(0, 0), (1, 1)] (1/10) (1/5)
    rfl rfl rfl rfl rfl (fun _ _ _ => rfl) (by decide)

/-- C2, counterexample: on the 4×4 controller, position (5, 0) lies
outside the matrix (row 5 ≥ num_rows 4), yet `press_sequence [(5, 0)]`
raises nothing and performs the full press — four bus writes — because
`matrix_sequence` calls `pulse_row_column` directly and only the pin
range 0–7 is ever checked. -/
theorem press_sequence_out_of_matrix_pressed_cex :
    demoController.num_rows = 4 ∧
    (press_sequence demoController [(5, 0)] (1/10) (1/5)).1 = .ok () ∧
    ((press_sequence demoController [(5, 0)] (1/10) (1/5)).2.2.filter
        Event.isWrite).length = 4 := by
  exact ⟨rfl, rfl, rfl⟩

theorem matrix_sequence_abort (pre : List (Int × Int)) :
    ∀ (s : MCP23S17), s.port_a_state = 0 → s.port_b_state = 0 →
    s.spi.isOpen = true → (∀ c a dd, s.spi.writeOk c a dd = true) →
    (∀ p ∈ pre, 0 ≤ p.1 ∧ p.1 ≤ 7 ∧ 0 ≤ p.2 ∧ p.2 ≤ 7) →
    ∀ (r c : Int) (post : List (Int × Int)) (d i : ℚ) (err : Err)
      (extra : List Event),
    (∀ t : MCP23S17, t.port_a_state = 0 → t.port_b_state = 0 →
      t.spi.isOpen = true → (∀ c' a' d', t.spi.writeOk c' a' d' = true) →
      t.chip_select = s.chip_select →
      (pulse_row_column t r c .A .B d).1 = .error err ∧
      (pulse_row_column t r c .A .B d).2.2 = extra) →
    (matrix_sequence s (pre ++ (r, c) :: post) .A .B d i).1 = .error err ∧
    (matrix_sequence s (pre ++ (r, c) :: post) .A .B d i).2.2
        = abortedEvents s.chip_select pre d i ++ extra := by
  induction pre with
  | nil =>
    intro s ha hb ho hwok hvalid r c post d i err extra hbad
    obtain ⟨hb1, hb2⟩ := hbad s ha hb ho hwok rfl
    simp only [List.nil_append, matrix_sequence]
    split
    next e s1 ev1 hw2 =>
      rw [hw2] at hb1 hb2
      simp at hb1 hb2
      subst hb1
      exact ⟨rfl, by rw [hb2]; simp [abortedEvents]⟩
    next u s1 ev1 hw2 =>
      rw [hw2] at hb1
      simp at hb1
  | cons hd rest ih =>
    intro s ha hb ho hwok hvalid r c post d i err extra hbad
    obtain ⟨pr, pc⟩ := hd
    obtain ⟨hr0, hr7, hc0, hc7⟩ := hvalid (pr, pc) (by simp)
    obtain ⟨hp1, hpa, hpb, hpcs, hpo, hpw, hptr⟩ :=
      pulse_from_zero s pr pc hr0 hr7 hc0 hc7 ha hb ho hwok d
    simp only [List.cons_append, matrix_sequence]
    split
    next e s1 ev1 hw2 =>
      rw [hw2] at hp1
      simp at hp1
    next u s1 ev1 hw2 =>
      have h1a : s1.port_a_state = 0 := by rw [hw2] at hpa; exact hpa
      have h1b : s1.port_b_state = 0 := by rw [hw2] at hpb; exact hpb
      have h1cs : s1.chip_select = s.chip_select := by rw [hw2] at hpcs; exact hpcs
      have h1o : s1.spi.isOpen = true := by rw [hw2] at hpo; exact hpo
      have h1w : s1.spi.writeOk = s.spi.writeOk := by rw [hw2] at hpw; exact hpw
      have h1tr : ev1 = pressEvents s.chip_select pr.toNat pc.toNat d := by
        rw [hw2] at hptr; exact hptr
      have hbad2 : ∀ t : MCP23S17, t.port_a_state = 0 → t.port_b_state = 0 →
          t.spi.isOpen = true → (∀ c' a' d', t.spi.writeOk c' a' d' = true) →
          t.chip_select = s1.chip_select →
          (pulse_row_column t r c .A .B d).1 = .error err ∧
          (pulse_row_column t r c .A .B d).2.2 = extra :=
        fun t t1 t2 t3 t4 t5 => hbad t t1 t2 t3 t4 (by rw [t5, h1cs])
      obtain ⟨ih1, ihtr⟩ := ih s1 h1a h1b h1o
        (fun c' a' d' => by rw [h1w]; exact hwok c' a' d')
        (fun p hp => hvalid p (List.mem_cons_of_mem _ hp))
        r c post d i err extra hbad2
      rcases hsh : rest ++ (r, c) :: post with _ | ⟨q, tail⟩
      · exact absurd hsh (by simp)
      · rw [hsh] at ih1 ihtr
        simp only [List.append_eq]
        rw [hsh]
        refine ⟨ih1, ?_⟩
        rw [h1tr, ihtr, h1cs]
        rw [show abortedEvents s.chip_select ((pr, pc) :: rest) d i
              = pressEvents s.chip_select pr.toNat pc.toNat d
                ++ (Event.sleep i :: abortedEvents s.chip_select rest d i)
            from rfl]
        simp

/-- C2, amended: `press_sequence` performs no matrix-dimension check; a
position is rejected only by the pin-range validation inside `set_pin`.
A position whose ROW is outside [0, 7] raises `ValueError` and aborts the
remaining sequence with no write for it or any later position; a position
whose row is valid but whose COLUMN is outside [0, 7] also raises and
aborts, but its row-high write has already been issued.  (Pin-valid
positions outside the configured matrix are pressed normally — see the
counterexample.) -/
theorem press_sequence_pin_range_abort :
    (∀ (mc : MatrixController) (pre : List (Int × Int)) (r c : Int)
       (post : List (Int × Int)) (d i : ℚ),
       mc.row_port = .A → mc.col_port = .B →
       mc.mcp.port_a_state = 0 → mc.mcp.port_b_state = 0 →
       mc.mcp.spi.isOpen = true →
       (∀ c' a' d', mc.mcp.spi.writeOk c' a' d' = true) →
       (∀ p ∈ pre, 0 ≤ p.1 ∧ p.1 ≤ 7 ∧ 0 ≤ p.2 ∧ p.2 ≤ 7) →
       ¬(0 ≤ r ∧ r ≤ 7) →
       (press_sequence mc (pre ++ (r, c) :: post) d i).1
           = .error (.valueError "Pin must be 0-7") ∧
       (press_sequence mc (pre ++ (r, c) :: post) d i).2.2
           = abortedEvents mc.mcp.chip_select pre d i) ∧
    (∀ (mc : MatrixController) (pre : List (Int × Int)) (r c : Int)
       (post : List (Int × Int)) (d i : ℚ),
       mc.row_port = .A → mc.col_port = .B →
       mc.mcp.port_a_state = 0 → mc.mcp.port_b_state = 0 →
       mc.mcp.spi.isOpen = true →
       (∀ c' a' d', mc.mcp.spi.writeOk c' a' d' = true) →
       (∀ p ∈ pre, 0 ≤ p.1 ∧ p.1 ≤ 7 ∧ 0 ≤ p.2 ∧ p.2 ≤ 7) →
       0 ≤ r → r ≤ 7 → ¬(0 ≤ c ∧ c ≤ 7) →
       (press_sequence mc (pre ++ (r, c) :: post) d i).1
           = .error (.valueError "Pin must be 0-7") ∧
       (press_sequence mc (pre ++ (r, c) :: post) d i).2.2
           = abortedEvents mc.mcp.chip_select pre d i
             ++ [.write ⟨0x40 ||| mc.mcp.chip_select <<< 1 ||| 0, 0x12,
                         1 <<< r.toNat⟩]) := by
  constructor
  · intro mc pre r c post d i hrp hcp ha hb ho hwok hvalid hbadr
    have hbad : ∀ t : MCP23S17, t.port_a_state = 0 → t.port_b_state = 0 →
        t.spi.isOpen = true → (∀ c' a' d', t.spi.writeOk c' a' d' = true) →
        t.chip_select = mc.mcp.chip_select →
        (pulse_row_column t r c .A .B d).1
            = .error (.valueError "Pin must be 0-7") ∧
        (pulse_row_column t r c .A .B d).2.2 = [] := by
      intro t t1 t2 t3 t4 t5
      constructor <;> simp [pulse_row_column, set_pin_high, hbadr]
    obtain ⟨h1, htr⟩ := matrix_sequence_abort pre mc.mcp ha hb ho hwok hvalid
      r c post d i (.valueError "Pin must be 0-7") [] hbad
    constructor
    · show (matrix_sequence mc.mcp (pre ++ (r, c) :: post)
          mc.row_port mc.col_port d i).1 = _
      rw [hrp, hcp]; exact h1
    · show (matrix_sequence mc.mcp (pre ++ (r, c) :: post)
          mc.row_port mc.col_port d i).2.2 = _
      rw [hrp, hcp, htr]; simp
  · intro mc pre r c post d i hrp hcp ha hb ho hwok hvalid hr0 hr7 hbadc
    have hbad : ∀ t : MCP23S17, t.port_a_state = 0 → t.port_b_state = 0 →
        t.spi.isOpen = true → (∀ c' a' d', t.spi.writeOk c' a' d' = true) →
        t.chip_select = mc.mcp.chip_select →
        (pulse_row_column t r c .A .B d).1
            = .error (.valueError "Pin must be 0-7") ∧
        (pulse_row_column t r c .A .B d).2.2
            = [.write ⟨0x40 ||| mc.mcp.chip_select <<< 1 ||| 0, 0x12,
                       1 <<< r.toNat⟩] := by
      intro t t1 t2 t3 t4 t5
      constructor <;>
        simp [pulse_row_column, set_pin_high, hbadc, hr0, hr7,
              show ¬(7 < r) from by omega, write_register, build_command,
              SpiDev.writebytes, SpiDev.latch, t1, t3, t4, t5,
              set_shadow, port_state, gpio_register, Register.value]
    obtain ⟨h1, htr⟩ := matrix_sequence_abort pre mc.mcp ha hb ho hwok hvalid
      r c post d i (.valueError "Pin must be 0-7")
      [.write ⟨0x40 ||| mc.mcp.chip_select <<< 1 ||| 0, 0x12, 1 <<< r.toNat⟩]
      hbad
    constructor
    · show (matrix_sequence mc.mcp (pre ++ (r, c) :: post)
          mc.row_port mc.col_port d i).1 = _
      rw [hrp, hcp]; exact h1
    · show (matrix_sequence mc.mcp (pre ++ (r, c) :: post)
          mc.row_port mc.col_port d i).2.2 = _
      rw [hrp, hcp, htr]

/-- Witness for the amended C2: after the valid press (0, 0), the
position (9, 0) — row 9 outside the pin range — aborts before the press
(1, 1). -/
theorem press_sequence_pin_range_abort_witness :
    (press_sequence demoController ([(0, 0)] ++ (9, 0) :: [(1, 1)]) (1/10) (1/5)).1
        = .error (.valueError "Pin must be 0-7") ∧
    (press_sequence demoController ([(0, 0)] ++ (9, 0) :: [(1, 1)]) (1/10) (1/5)).2.2
        = abortedEvents demoController.mcp.chip_select [(0, 0)] (1/10) (1/5) :=
  press_sequence_pin_range_abort.1 demoController [(0, 0)] 9 0 [(1, 1)] (1/10) (1/5)
    rfl rfl rfl rfl rfl (fun _ _ _ => rfl) (by decide) (by decide)

/-- C9: on a working transport `cleanup` issues exactly the two frames
writing 0x00 to GPIOA and GPIOB — whatever the cached shadows hold — so
both physical registers end at 0, and the SPI handle is closed.  Calling
it a second time is safe: `cleanup` traps every transport error (the
write on the closed handle fails), propagates nothing (its type carries
no error), leaves the state exactly as the first call left it, and the
physical registers stay 0. -/
theorem cleanup_writes_zero_idempotent (s : MCP23S17)
    (hopen : s.spi.isOpen = true)
    (hok : ∀ c a d, s.spi.writeOk c a d = true) :
    (cleanup s).2
        = [.write ⟨0x40 ||| s.chip_select <<< 1 ||| 0, 0x12, 0x00⟩,
           .write ⟨0x40 ||| s.chip_select <<< 1 ||| 0, 0x13, 0x00⟩] ∧
    (cleanup s).1.spi.regs 0x12 = 0 ∧
    (cleanup s).1.spi.regs 0x13 = 0 ∧
    (cleanup s).1.spi.isOpen = false ∧
    cleanup (cleanup s).1
        = ((cleanup s).1,
           [.write ⟨0x40 ||| s.chip_select <<< 1 ||| 0, 0x12, 0x00⟩]) ∧
    (cleanup (cleanup s).1).1.spi.regs 0x12 = 0 ∧
    (cleanup (cleanup s).1).1.spi.regs 0x13 = 0 := by
  have hc : cleanup s
      = ({ s with
            spi :=
              ((s.spi.latch (0x40 ||| s.chip_select <<< 1 ||| 0) 0x12 0).latch
                  (0x40 ||| s.chip_select <<< 1 ||| 0) 0x13 0).close },
         [.write ⟨0x40 ||| s.chip_select <<< 1 ||| 0, 0x12, 0x00⟩,
          .write ⟨0x40 ||| s.chip_select <<< 1 ||| 0, 0x13, 0x00⟩]) := by
    simp [cleanup, write_register, build_command, SpiDev.writebytes,
          latch_isOpen, latch_writeOk, hopen, hok, Register.value]
  have hregs12 : (cleanup s).1.spi.regs 0x12 = 0 := by
    rw [hc]
    simp [SpiDev.close, SpiDev.latch, write_command_mod_two, Function.update]
  have hregs13 : (cleanup s).1.spi.regs 0x13 = 0 := by
    rw [hc]
    simp [SpiDev.close, SpiDev.latch, write_command_mod_two, Function.update]
  have hclosed : (cleanup s).1.spi.isOpen = false := by
    rw [hc]; rfl
  have hsecond : cleanup (cleanup s).1
      = ((cleanup s).1,
         [.write ⟨0x40 ||| s.chip_select <<< 1 ||| 0, 0x12, 0x00⟩]) := by
    rw [hc]
    simp [cleanup, write_register, build_command, SpiDev.writebytes,
          SpiDev.close, Register.value]
  refine ⟨by rw [hc], hregs12, hregs13, hclosed, hsecond, ?_, ?_⟩
  · rw [hsecond]; exact hregs12
  · rw [hsecond]; exact hregs13

/-- Witness for C9 on a state whose port A shadow is nonzero. -/
theorem cleanup_writes_zero_idempotent_witness :
    (cleanup pressedState).2
        = [.write ⟨0x40 ||| pressedState.chip_select <<< 1 ||| 0, 0x12, 0x00⟩,
           .write ⟨0x40 ||| pressedState.chip_select <<< 1 ||| 0, 0x13, 0x00⟩] ∧
    (cleanup pressedState).1.spi.regs 0x12 = 0 ∧
    (cleanup pressedState).1.spi.regs 0x13 = 0 ∧
    (cleanup pressedState).1.spi.isOpen = false ∧
    cleanup (cleanup pressedState).1
        = ((cleanup pressedState).1,
           [.write ⟨0x40 ||| pressedState.chip_select <<< 1 ||| 0, 0x12, 0x00⟩]) ∧
    (cleanup (cleanup pressedState).1).1.spi.regs 0x12 = 0 ∧
    (cleanup (cleanup pressedState).1).1.spi.regs 0x13 = 0 :=
  cleanup_writes_zero_idempotent pressedState rfl (fun _ _ _ => rfl)
